import Mathlib

/-!
Verification of the WakeLink cloud relay server against its natural-language
specification.  The Lean definitions below are a shallow embedding of the
Python sources: `src/core/relay.py` (the `WebSocketManager`),
`src/routes/api.py` (the HTTP push/pull surface) and `src/routes/wss.py`
(the stream endpoints).  Stateful code is embedded as explicit state
passing; stream sends are modelled by an oracle `sendOk : Nat → OuterPacket →
Bool` that says whether `ws.send_text` on a given stream succeeds (raising
an exception in Python corresponds to `sendOk ws p = false`).
-/

set_option maxHeartbeats 1000000

namespace WakeLink

/-- The outer JSON envelope relayed between clients and devices:
`device_id, payload, signature, version` and the optional
`request_counter` (an absent JSON key is `none`). -/
structure OuterPacket where
  device_id : String
  payload : String
  signature : String
  version : String
  request_counter : Option Int
deriving Repr, DecidableEq

/-- In-memory state of `WebSocketManager` (src/core/relay.py): `connections`
maps a connection id to its stream (streams are identified by a `Nat`),
`queues` maps a device id to its pending messages (`queues.get(id, [])`
is the total function with default `[]`), and `pending_responses` maps a
device id to the client id waiting for its response. -/
structure RelayState where
  connections : String → Option Nat
  queues : String → List OuterPacket
  pending_responses : String → Option String

/-- The empty relay state (`WebSocketManager.__init__`). -/
def rsEmpty : RelayState :=
  { connections := fun _ => none, queues := fun _ => [], pending_responses := fun _ => none }

/-- Result of `WebSocketManager.push`: the new state, the list of
(stream, packet) pairs successfully sent, and the returned boolean. -/
structure PushOut where
  rs : RelayState
  sent : List (Nat × OuterPacket)
  delivered : Bool

/-- `sender_id.startswith("client_")`, computed on the character lists so
that concrete scenarios evaluate (equivalent to `String.startsWith`). -/
def isClientSender (s : String) : Bool :=
  "client_".data.isPrefixOf s.data

/-- The pending-response tracking block of `WebSocketManager.push`
(src/core/relay.py lines 109-111): when the sender id is given and starts
with `client_`, overwrite the pending-response entry for the target. -/
def trackPending (rs : RelayState) (target_id : String) (sender_id : Option String) :
    RelayState :=
  match sender_id with
  | some s =>
      if isClientSender s then
        { rs with pending_responses := fun d =>
            if d = target_id then some s else rs.pending_responses d }
      else rs
  | none => rs

/-- The queueing block of `WebSocketManager.push` (src/core/relay.py lines
122-124): append the packet to the target's queue. -/
def enqueue (rs : RelayState) (target_id : String) (data : OuterPacket) : RelayState :=
  { rs with queues := fun id =>
      if id = target_id then rs.queues id ++ [data] else rs.queues id }

/-- `WebSocketManager.push` (src/core/relay.py lines 92-126): look up the
target's stream and record the pending-response entry when the sender is a
client; if a stream exists try to send, returning `True` on success;
otherwise (no stream, or the send raised) append the packet to the
target's queue and return `False`. -/
def WebSocketManager.push (sendOk : Nat → OuterPacket → Bool) (rs : RelayState)
    (target_id : String) (data : OuterPacket) (sender_id : Option String) : PushOut :=
  match (trackPending rs target_id sender_id).connections target_id with
  | some ws =>
      if sendOk ws data then
        { rs := trackPending rs target_id sender_id, sent := [(ws, data)],
          delivered := true }
      else
        { rs := enqueue (trackPending rs target_id sender_id) target_id data,
          sent := [], delivered := false }
  | none =>
      { rs := enqueue (trackPending rs target_id sender_id) target_id data,
        sent := [], delivered := false }

/-- The drain loop inside `WebSocketManager.connect`: send queued messages
one by one, breaking on the first failed send.  Returns the successfully
sent (stream, packet) pairs, in order. -/
def drainSends (sendOk : Nat → OuterPacket → Bool) (ws : Nat) :
    List OuterPacket → List (Nat × OuterPacket)
  | [] => []
  | m :: rest =>
      if sendOk ws m then (ws, m) :: drainSends sendOk ws rest else []

/-- Result of `WebSocketManager.connect`: the new state, the queued packets
successfully sent to the new stream, and the streams the registry closed. -/
structure ConnectOut where
  rs : RelayState
  sent : List (Nat × OuterPacket)
  closed : List Nat

/-- The registration line of `WebSocketManager.connect`
(`self.connections[connection_id] = ws`): overwrite the map entry; the
previous stream, if any, is not closed. -/
def registerConn (rs : RelayState) (connection_id : String) (ws : Nat) : RelayState :=
  { rs with connections := fun id =>
      if id = connection_id then some ws else rs.connections id }

/-- The queue removal at the end of `WebSocketManager.connect`
(`self.queues.pop(connection_id, None)`). -/
def clearQueue (rs : RelayState) (connection_id : String) : RelayState :=
  { rs with queues := fun id =>
      if id = connection_id then [] else rs.queues id }

/-- `WebSocketManager.connect` (src/core/relay.py lines 44-70): store the
stream under the connection id (overwriting any previous entry, which is
not closed), read the queued messages; if any, send them in order breaking
on the first failure, and then remove the whole queue entry whether or
not every send succeeded. -/
def WebSocketManager.connect (sendOk : Nat → OuterPacket → Bool) (rs : RelayState)
    (connection_id : String) (ws : Nat) : ConnectOut :=
  if ((registerConn rs connection_id ws).queues connection_id).isEmpty then
    { rs := registerConn rs connection_id ws, sent := [], closed := [] }
  else
    { rs := clearQueue (registerConn rs connection_id ws) connection_id,
      sent := drainSends sendOk ws ((registerConn rs connection_id ws).queues connection_id),
      closed := [] }

/-- Result of `WebSocketManager.disconnect`. -/
structure DisconnectOut where
  rs : RelayState
  closed : List Nat

/-- The map mutations of `WebSocketManager.disconnect`: pop the connection
entry and purge every pending-response entry whose waiting client is this
id. -/
def removeConn (rs : RelayState) (connection_id : String) : RelayState :=
  { rs with
    connections := fun id => if id = connection_id then none else rs.connections id,
    pending_responses := fun d =>
      match rs.pending_responses d with
      | some c => if c = connection_id then none else some c
      | none => none }

/-- `WebSocketManager.disconnect` (src/core/relay.py lines 72-90): pop the
connection, purge every pending-response entry whose waiting client is
this id, and close the popped stream if there was one. -/
def WebSocketManager.disconnect (rs : RelayState) (connection_id : String) : DisconnectOut :=
  match rs.connections connection_id with
  | some w => { rs := removeConn rs connection_id, closed := [w] }
  | none => { rs := removeConn rs connection_id, closed := [] }

/-- Result of `WebSocketManager.push_response`. -/
structure PushRespOut where
  rs : RelayState
  sent : List (Nat × OuterPacket)
  forwarded : Bool

/-- The pop of the pending-response entry in `WebSocketManager.push_response`
(`self.pending_responses.pop(device_id, None)`). -/
def popPending (rs : RelayState) (device_id : String) : RelayState :=
  { rs with pending_responses := fun d =>
      if d = device_id then none else rs.pending_responses d }

/-- `WebSocketManager.push_response` (src/core/relay.py lines 128-159): pop
the pending-response entry for the device; if a client was waiting and its
stream is registered, try to send, returning `True` on success; in every
other case return `False`. -/
def WebSocketManager.push_response (sendOk : Nat → OuterPacket → Bool) (rs : RelayState)
    (device_id : String) (data : OuterPacket) : PushRespOut :=
  match rs.pending_responses device_id with
  | none => { rs := popPending rs device_id, sent := [], forwarded := false }
  | some cid =>
      match (popPending rs device_id).connections cid with
      | none => { rs := popPending rs device_id, sent := [], forwarded := false }
      | some ws =>
          if sendOk ws data then
            { rs := popPending rs device_id, sent := [(ws, data)], forwarded := true }
          else
            { rs := popPending rs device_id, sent := [], forwarded := false }

/-! ## The entity store (src/core/models.py)

Rows are embedded as structures carrying the columns the relay reads or
writes; wall-clock times and SQL `timestamp` values are `Nat`s supplied by
the caller as `now`.  Columns never touched by the code under
verification (`username`, `password_hash`, `plan`, `devices_limit`,
`cloud`, `added`) are omitted. -/

/-- A row of the `users` table. -/
structure UserR where
  id : Nat
  api_token : String
deriving Repr, DecidableEq

/-- A row of the `devices` table (`device_id` is the primary key). -/
structure DeviceR where
  device_id : String
  user_id : Nat
  device_token : String
  last_seen : Option Nat
  poll_count : Nat
  last_request_counter : Int
deriving Repr, DecidableEq

/-- A row of the `messages` table.  `timestamp` is the insertion time. -/
structure MessageR where
  device_id : String
  device_token : Option String
  message_type : String
  message_data : String
  signature : String
  direction : String
  timestamp : Nat
deriving Repr, DecidableEq

/-- The durable store.  `messages` is kept in insertion order with
non-decreasing timestamps, matching the SQL table. -/
structure DB where
  users : List UserR
  devices : List DeviceR
  messages : List MessageR
deriving Repr, DecidableEq

/-- `db.query(Device).filter(Device.device_id == did).first()`. -/
def findDevice (db : DB) (did : String) : Option DeviceR :=
  db.devices.find? (fun d => d.device_id == did)

/-- Mutating the fetched device row and committing: every row whose
`device_id` matches is replaced by its image under `g` (since `device_id`
is the primary key at most one row matches). -/
def updateDevice (db : DB) (did : String) (g : DeviceR → DeviceR) : DB :=
  { db with devices := db.devices.map (fun d => if d.device_id == did then g d else d) }

/-- `db.query(Message).filter(device_id == did, direction == dir)`:
the rows for a device and direction, in insertion order. -/
def msgsFor (db : DB) (did : String) (dir : String) : List MessageR :=
  db.messages.filter (fun m => m.device_id == did && m.direction == dir)

/-- `DecidableRel` instance for ordering message rows by timestamp. -/
instance : DecidableRel (fun a b : MessageR => a.timestamp ≤ b.timestamp) :=
  fun a b => Nat.decLe a.timestamp b.timestamp

/-- `.order_by(Message.timestamp)`: a stable sort on the timestamp. -/
def orderByTimestamp (l : List MessageR) : List MessageR :=
  List.insertionSort (fun a b => a.timestamp ≤ b.timestamp) l

/-- `validate_api_token` (src/core/auth.py): the user whose `api_token`
equals the presented token. -/
def validate_api_token (db : DB) (api_token : String) : Option UserR :=
  db.users.find? (fun u => u.api_token == api_token)

/-- `validate_api_token_dependency` (src/routes/api.py lines 55-76): 401
when the token is missing or does not resolve, otherwise the user. -/
def validate_api_token_dependency (db : DB) (api_token : Option String) :
    Except Nat UserR :=
  match api_token with
  | none => Except.error 401
  | some t =>
      match validate_api_token db t with
      | none => Except.error 401
      | some u => Except.ok u

/-! ## HTTP push/pull surface (src/routes/api.py) -/

/-- The `PushMessage` request schema (src/core/schemas.py). -/
structure PushMessage where
  device_id : String
  payload : String
  signature : String
  version : String := "1.0"
  direction : String := "to_device"
deriving Repr, DecidableEq

/-- The `PullRequest` request schema (src/core/schemas.py). -/
structure PullRequest where
  device_id : String
  direction : String := "to_client"
  wait : Nat := 0
deriving Repr, DecidableEq

/-- The JSON body returned by `/api/push`. -/
structure PushResult where
  status : String
  device_id : String
  delivered_via_ws : Bool
deriving Repr, DecidableEq

/-- One element of the `messages` list returned by `/api/pull`. -/
structure MsgOut where
  device_id : String
  message_type : String
  packet : String
  payload : String
  signature : String
  direction : String
  timestamp : Nat
deriving Repr, DecidableEq

/-- The JSON body returned by `/api/pull`. -/
structure PullResult where
  status : String
  device_id : String
  messages : List MsgOut
  count : Nat
deriving Repr, DecidableEq

/-- Serialisation of a message row in the pull response (`packet` and
`payload` both carry `message_data`, as in the code). -/
def msgToOut (m : MessageR) : MsgOut :=
  { device_id := m.device_id, message_type := m.message_type,
    packet := m.message_data, payload := m.message_data,
    signature := m.signature, direction := m.direction,
    timestamp := m.timestamp }

/-- Everything `/api/push` produces: the new store, relay state, successful
stream sends, and the response body. -/
structure HttpPushOut where
  db : DB
  rs : RelayState
  sent : List (Nat × OuterPacket)
  res : PushResult

/-- The `last_seen` mutation committed on an observed device row. -/
def touchLastSeen (now : Nat) (d : DeviceR) : DeviceR :=
  { d with last_seen := some now }

/-- The `poll_count` increment of `/api/pull` on a non-empty read. -/
def bumpPollCount (d : DeviceR) : DeviceR :=
  { d with poll_count := d.poll_count + 1 }

/-- The message row `/api/push` inserts unconditionally (`device_token`
copied from the device row when one exists, else null). -/
def pushRow (db : DB) (now : Nat) (msg : PushMessage) : MessageR :=
  { device_id := msg.device_id,
    device_token := (findDevice db msg.device_id).map (fun d => d.device_token),
    message_type := if msg.direction == "to_device" then "command" else "response",
    message_data := msg.payload,
    signature := msg.signature,
    direction := msg.direction,
    timestamp := now }

/-- The outer packet `/api/push` hands to the relay. -/
def pushPacket (msg : PushMessage) : OuterPacket :=
  { device_id := msg.device_id, payload := msg.payload,
    signature := msg.signature, version := msg.version, request_counter := none }

/-- `push_message` (src/routes/api.py lines 135-186): fetch the device row
by `device_id` alone (no ownership, existence or version check; `user` is
unused), set its `last_seen` if it exists, insert a message row
unconditionally, then attempt relay delivery only when the device row
exists.  Always returns status "ok". -/
def push_message (sendOk : Nat → OuterPacket → Bool) (db : DB) (rs : RelayState)
    (now : Nat) (user : UserR) (msg : PushMessage) : HttpPushOut :=
  let db1 :=
    match findDevice db msg.device_id with
    | some _ => updateDevice db msg.device_id (touchLastSeen now)
    | none => db
  let db2 : DB := { db1 with messages := db1.messages ++ [pushRow db now msg] }
  match findDevice db msg.device_id with
  | some _ =>
      let r := WebSocketManager.push sendOk rs msg.device_id (pushPacket msg) none
      { db := db2, rs := r.rs, sent := r.sent,
        res := { status := "ok", device_id := msg.device_id, delivered_via_ws := r.delivered } }
  | none =>
      { db := db2, rs := rs, sent := [],
        res := { status := "ok", device_id := msg.device_id, delivered_via_ws := false } }

/-- The `/api/push` route including its auth dependency. -/
def pushRoute (sendOk : Nat → OuterPacket → Bool) (db : DB) (rs : RelayState)
    (now : Nat) (api_token : Option String) (msg : PushMessage) :
    Except Nat HttpPushOut :=
  match validate_api_token_dependency db api_token with
  | Except.error e => Except.error e
  | Except.ok u => Except.ok (push_message sendOk db rs now u msg)

/-- Everything `/api/pull` produces. -/
structure HttpPullOut where
  db : DB
  res : PullResult

/-- `pull_messages` (src/routes/api.py lines 188-272): fetch the device row
by `device_id` alone (no ownership check; `user` is unused) and set its
`last_seen` if it exists; read all message rows for `(device_id,
direction)` ordered by timestamp.  The long-poll loop only re-reads the
same query until it is non-empty or `min(wait, 30)` seconds elapse; with
no concurrent writer every re-read returns the same rows, so the final
read equals the first and `wait` does not affect the outcome.  Increment
`poll_count` only when the device row exists and the read was non-empty,
serialise the rows, then delete exactly the rows read. -/
def pull_messages (db : DB) (now : Nat) (user : UserR) (msg : PullRequest) :
    HttpPullOut :=
  let db1 :=
    match findDevice db msg.device_id with
    | some _ => updateDevice db msg.device_id (touchLastSeen now)
    | none => db
  let messages := orderByTimestamp (msgsFor db1 msg.device_id msg.direction)
  let db2 :=
    if (findDevice db msg.device_id).isSome && !messages.isEmpty then
      updateDevice db1 msg.device_id bumpPollCount
    else db1
  let remaining := db2.messages.filter
    (fun m => !(m.device_id == msg.device_id && m.direction == msg.direction))
  { db := { db2 with messages := remaining },
    res := { status := "ok", device_id := msg.device_id,
             messages := messages.map msgToOut,
             count := (messages.map msgToOut).length } }

/-- The `/api/pull` route including its auth dependency. -/
def pullRoute (db : DB) (now : Nat) (api_token : Option String) (msg : PullRequest) :
    Except Nat HttpPullOut :=
  match validate_api_token_dependency db api_token with
  | Except.error e => Except.error e
  | Except.ok u => Except.ok (pull_messages db now u msg)

/-! ## Stream endpoints (src/routes/wss.py) -/

/-- A parsed ingress JSON frame: each field is `some v` when the key is
present.  `request_counter` is the optional monotonic counter. -/
structure Frame where
  device_id : Option String
  payload : Option String
  signature : Option String
  version : Option String
  request_counter : Option Int
deriving Repr, DecidableEq

/-- A server→peer frame on a stream. -/
inductive ServerFrame where
  | welcome (id : String)
  | errorFrame (kind : String)
  | envelope (p : OuterPacket)
  | ack (device_id : String) (delivered : Bool)
deriving Repr, DecidableEq

/-- The `required_fields` membership check of both endpoints:
`device_id`, `payload`, `signature` and `version` keys all present. -/
def hasAllFields (f : Frame) : Bool :=
  f.device_id.isSome && f.payload.isSome && f.signature.isSome && f.version.isSome

/-- A frame that passes both ingress validations: required fields present
and `version == "1.0"`. -/
def validFrame (f : Frame) : Bool :=
  hasAllFields f && (f.version == some "1.0")

/-- Effects of processing one frame on a device stream. -/
structure DevFrameOut where
  db : DB
  rs : RelayState
  relaySent : List (Nat × OuterPacket)
  toPeer : List ServerFrame
  forwarded : Bool

/-- The mutation of the frame's device row on a valid device-stream frame:
`last_seen = now` and, whenever the frame carries a `request_counter`, an
unconditional assignment of `last_request_counter` to it (no comparison
with the stored value). -/
def deviceIngressUpdate (now : Nat) (f : Frame) (d : DeviceR) : DeviceR :=
  { d with
    last_seen := some now,
    last_request_counter :=
      match f.request_counter with
      | some c => c
      | none => d.last_request_counter }

/-- The outer packet a device-stream frame is forwarded as: all four
fields plus the frame's `request_counter`. -/
def deviceOuterPacket (f : Frame) : OuterPacket :=
  { device_id := f.device_id.getD "", payload := f.payload.getD "",
    signature := f.signature.getD "", version := "1.0",
    request_counter := f.request_counter }

/-- The durable `to_client` row stored when no client is waiting: keyed by
the frame's `device_id`, with the authenticated path device's token. -/
def deviceResponseRow (now : Nat) (authDevice : DeviceR) (f : Frame) : MessageR :=
  { device_id := f.device_id.getD "", device_token := some authDevice.device_token,
    message_type := "response", message_data := f.payload.getD "",
    signature := f.signature.getD "", direction := "to_client",
    timestamp := now }

/-- The per-frame body of `websocket_device_endpoint` (src/routes/wss.py
lines 322-391), after JSON parsing, on the stream opened for
`path_device_id` whose authenticated row is `authDevice`: reject frames
with missing fields or a version other than "1.0" with an error frame and
no state change; otherwise take `target := frame's device_id` (which may
differ from the path id — it is looked up with no ownership filter), set
that row's `last_seen` and, whenever the frame carries a
`request_counter`, assign it to `last_request_counter` unconditionally;
build the outer packet from the frame and call `push_response` under the
*path* device id; when no client was reachable, insert a durable
`to_client` row under the frame's device id with the path device's
token. -/
def processDeviceFrame (sendOk : Nat → OuterPacket → Bool) (db : DB) (rs : RelayState)
    (now : Nat) (path_device_id : String) (authDevice : DeviceR) (f : Frame) :
    DevFrameOut :=
  if !(hasAllFields f) then
    { db := db, rs := rs, relaySent := [],
      toPeer := [ServerFrame.errorFrame "INVALID_PACKET"], forwarded := false }
  else if f.version != some "1.0" then
    { db := db, rs := rs, relaySent := [],
      toPeer := [ServerFrame.errorFrame "UNSUPPORTED_VERSION"], forwarded := false }
  else
    let target := f.device_id.getD ""
    let db1 :=
      match findDevice db target with
      | some _ => updateDevice db target (deviceIngressUpdate now f)
      | none => db
    let r := WebSocketManager.push_response sendOk rs path_device_id (deviceOuterPacket f)
    if r.forwarded then
      { db := db1, rs := r.rs, relaySent := r.sent, toPeer := [], forwarded := true }
    else
      { db := { db1 with messages := db1.messages ++ [deviceResponseRow now authDevice f] },
        rs := r.rs, relaySent := r.sent, toPeer := [], forwarded := false }

/-- Effects of processing one frame on a client stream. -/
structure ClientFrameOut where
  db : DB
  rs : RelayState
  relaySent : List (Nat × OuterPacket)
  toPeer : List ServerFrame
  delivered : Bool

/-- The command packet the relay delivers (or queues) for a valid
client-stream frame: `device_id, payload, signature, version:"1.0"` — the
frame's `request_counter` is not copied into it. -/
def clientOuterPacket (f : Frame) : OuterPacket :=
  { device_id := f.device_id.getD "", payload := f.payload.getD "",
    signature := f.signature.getD "", version := "1.0",
    request_counter := none }

/-- The durable `to_device` row stored when the target device is offline. -/
def clientCommandRow (db : DB) (now : Nat) (f : Frame) : MessageR :=
  { device_id := f.device_id.getD "",
    device_token := (findDevice db (f.device_id.getD "")).map (fun d => d.device_token),
    message_type := "command", message_data := f.payload.getD "",
    signature := f.signature.getD "", direction := "to_device",
    timestamp := now }

/-- The per-frame body of `websocket_client_endpoint` (src/routes/wss.py
lines 449-523), after JSON parsing, on the client stream registered as
`connection_id`: reject frames with missing fields or a version other
than "1.0"; otherwise set the target device's `last_seen` if its row
exists, build the outer packet `device_id, payload, signature,
version:"1.0"` — the frame's `request_counter` is not copied into it —
and call `push` with this client as sender; when not delivered, insert a
durable `to_device` row; finally send the ACK frame. -/
def processClientFrame (sendOk : Nat → OuterPacket → Bool) (db : DB) (rs : RelayState)
    (now : Nat) (connection_id : String) (f : Frame) : ClientFrameOut :=
  if !(hasAllFields f) then
    { db := db, rs := rs, relaySent := [],
      toPeer := [ServerFrame.errorFrame "INVALID_PACKET"], delivered := false }
  else if f.version != some "1.0" then
    { db := db, rs := rs, relaySent := [],
      toPeer := [ServerFrame.errorFrame "UNSUPPORTED_VERSION"], delivered := false }
  else
    let target := f.device_id.getD ""
    let db1 :=
      match findDevice db target with
      | some _ => updateDevice db target (touchLastSeen now)
      | none => db
    let r := WebSocketManager.push sendOk rs target (clientOuterPacket f) (some connection_id)
    let db2 :=
      if r.delivered then db1
      else { db1 with messages := db1.messages ++ [clientCommandRow db now f] }
    { db := db2, rs := r.rs, relaySent := r.sent,
      toPeer := [ServerFrame.ack target r.delivered], delivered := r.delivered }

/-- The frames sent to a freshly authenticated device stream
(src/routes/wss.py lines 286-303): `relay.connect` first drains any queued
envelopes onto the new stream, and only then is the welcome frame sent.
Returns the new relay state and the ordered frames the peer received
(assuming the welcome send succeeds). -/
def deviceConnectPhase (sendOk : Nat → OuterPacket → Bool) (rs : RelayState)
    (device_id : String) (ws : Nat) : RelayState × List ServerFrame :=
  let out := WebSocketManager.connect sendOk rs device_id ws
  (out.rs, out.sent.map (fun p => ServerFrame.envelope p.2) ++ [ServerFrame.welcome device_id])

/-! ## Concrete scenario data -/

/-- A sample packet targeting device "D". -/
def pkt (p : String) : OuterPacket :=
  { device_id := "D", payload := p, signature := "s", version := "1.0",
    request_counter := none }

/-- Send oracle on which every stream send succeeds. -/
def sendAllOk : Nat → OuterPacket → Bool := fun _ _ => true

/-- Send oracle on which every stream send fails (raises). -/
def sendAllFail : Nat → OuterPacket → Bool := fun _ _ => false

/-- Relay state with two envelopes queued for device "D". -/
def c2rs : RelayState :=
  { rsEmpty with queues := fun id => if id = "D" then [pkt "m1", pkt "m2"] else [] }

/-- Relay state where stream 1 is registered for "D". -/
def c6rs : RelayState :=
  { rsEmpty with connections := fun id => if id = "D" then some 1 else none }

/-- Relay state with one envelope queued for device "D". -/
def c7rs : RelayState :=
  { rsEmpty with queues := fun id => if id = "D" then [pkt "m1"] else [] }

/-- Device row "D1" owned by user 1, used in the push scenario. -/
def c1dev : DeviceR :=
  { device_id := "D1", user_id := 1, device_token := "dt1",
    last_seen := none, poll_count := 0, last_request_counter := 0 }

/-- Store with users 1 and 2 where device "D1" belongs to user 1. -/
def c1db : DB :=
  { users := [{ id := 1, api_token := "t1" }, { id := 2, api_token := "t2" }],
    devices := [c1dev], messages := [] }

/-- A push request for "D1" carrying an unsupported version. -/
def c1msg : PushMessage :=
  { device_id := "D1", payload := "p", signature := "s", version := "2.0",
    direction := "to_device" }

/-- The response body of a push route outcome, `none` on an error. -/
def pushResOf : Except Nat HttpPushOut → Option PushResult
  | Except.ok o => some o.res
  | Except.error _ => none

/-- The stored message rows after a push route outcome, `none` on an error. -/
def pushMessagesOf : Except Nat HttpPushOut → Option (List MessageR)
  | Except.ok o => some o.db.messages
  | Except.error _ => none

/-- Device row "X" with stored `last_request_counter = 5`. -/
def c3dev : DeviceR :=
  { device_id := "X", user_id := 1, device_token := "tokX", last_seen := none,
    poll_count := 0, last_request_counter := 5 }

/-- Store holding only device "X". -/
def c3db : DB := { users := [], devices := [c3dev], messages := [] }

/-- A valid device frame for "X" carrying the lower counter 3. -/
def c3frame : Frame :=
  { device_id := some "X", payload := some "p", signature := some "s",
    version := some "1.0", request_counter := some 3 }

/-- The empty store. -/
def dbEmpty : DB := { users := [], devices := [], messages := [] }

/-- Relay state where stream 1 is registered for device "D". -/
def c5rs : RelayState :=
  { rsEmpty with connections := fun id => if id = "D" then some 1 else none }

/-- A valid client frame for "D" carrying `request_counter = 7`. -/
def c5frame : Frame :=
  { device_id := some "D", payload := some "p", signature := some "s",
    version := some "1.0", request_counter := some 7 }

/-- Device row "D1" with `poll_count = 4`, used in the pull scenario. -/
def c8dev : DeviceR :=
  { device_id := "D1", user_id := 1, device_token := "dt1", last_seen := none,
    poll_count := 4, last_request_counter := 0 }

/-- Store with one queued `to_client` envelope for "D1". -/
def c8db : DB :=
  { users := [{ id := 1, api_token := "t1" }],
    devices := [c8dev],
    messages := [{ device_id := "D1", device_token := some "dt1",
                   message_type := "response", message_data := "m", signature := "s",
                   direction := "to_client", timestamp := 0 }] }

/-- A pull request for "D1" with a positive `wait`. -/
def c8msg : PullRequest := { device_id := "D1", direction := "to_client", wait := 5 }

/-- Store where "D1" belongs to user 1 and an envelope is queued under the
nonexistent device id "DX". -/
def c9db : DB :=
  { users := [{ id := 1, api_token := "t1" }, { id := 2, api_token := "t2" }],
    devices := [{ device_id := "D1", user_id := 1, device_token := "dt1",
                  last_seen := none, poll_count := 0, last_request_counter := 0 }],
    messages := [{ device_id := "DX", device_token := none, message_type := "response",
                   message_data := "r1", signature := "s1", direction := "to_client",
                   timestamp := 0 }] }

/-- User 2, who owns no device at all. -/
def c9user : UserR := { id := 2, api_token := "t2" }

/-- A pull request for the nonexistent device id "DX". -/
def c9msg : PullRequest := { device_id := "DX", direction := "to_client", wait := 0 }

/-- The authenticated path device "A" of the device-stream scenario. -/
def c10pathdev : DeviceR :=
  { device_id := "A", user_id := 1, device_token := "dtA", last_seen := none,
    poll_count := 0, last_request_counter := 0 }

/-- A different user's device "B", named by the frame. -/
def c10otherdev : DeviceR :=
  { device_id := "B", user_id := 2, device_token := "dtB", last_seen := none,
    poll_count := 0, last_request_counter := 1 }

/-- Store holding devices "A" (user 1) and "B" (user 2). -/
def c10db : DB := { users := [], devices := [c10pathdev, c10otherdev], messages := [] }

/-- A valid frame sent on device "A"'s stream but naming device "B". -/
def c10frame : Frame :=
  { device_id := some "B", payload := some "p", signature := some "s",
    version := some "1.0", request_counter := some 9 }

/-! ## Helper lemmas -/

/-- Pending-response tracking never changes the connection map. -/
theorem trackPending_connections (rs : RelayState) (t : String) (s : Option String) :
    (trackPending rs t s).connections = rs.connections := by
  rcases s with _ | s
  · rfl
  · unfold trackPending
    rw [apply_ite RelayState.connections]
    dsimp only
    rw [ite_self]

/-- Pending-response tracking never changes the queues. -/
theorem trackPending_queues (rs : RelayState) (t : String) (s : Option String) :
    (trackPending rs t s).queues = rs.queues := by
  rcases s with _ | s
  · rfl
  · unfold trackPending
    rw [apply_ite RelayState.queues]
    dsimp only
    rw [ite_self]

/-- Case analysis of `WebSocketManager.push`: either the packet was sent
once over the target's registered stream and the queues are untouched, or
nothing was sent and the packet was appended once to the target's queue. -/
theorem push_cases (sendOk : Nat → OuterPacket → Bool) (rs : RelayState)
    (target : String) (data : OuterPacket) (sender : Option String) :
    ((WebSocketManager.push sendOk rs target data sender).delivered = true ∧
      (WebSocketManager.push sendOk rs target data sender).sent.map Prod.snd = [data] ∧
      (WebSocketManager.push sendOk rs target data sender).sent.map Prod.fst =
        (rs.connections target).toList ∧
      (WebSocketManager.push sendOk rs target data sender).rs.queues = rs.queues) ∨
    ((WebSocketManager.push sendOk rs target data sender).delivered = false ∧
      (WebSocketManager.push sendOk rs target data sender).sent = [] ∧
      ∀ id, (WebSocketManager.push sendOk rs target data sender).rs.queues id =
        if id = target then rs.queues id ++ [data] else rs.queues id) := by
  unfold WebSocketManager.push
  rw [trackPending_connections]
  rcases hconn : rs.connections target with _ | ws
  · right
    refine ⟨rfl, rfl, fun id => ?_⟩
    show (enqueue (trackPending rs target sender) target data).queues id = _
    rw [enqueue]
    dsimp only
    rw [trackPending_queues]
  · dsimp only
    by_cases hsend : sendOk ws data
    · left
      rw [if_pos hsend]
      exact ⟨rfl, rfl, rfl, trackPending_queues rs target sender⟩
    · right
      rw [if_neg hsend]
      refine ⟨rfl, rfl, fun id => ?_⟩
      show (enqueue (trackPending rs target sender) target data).queues id = _
      rw [enqueue]
      dsimp only
      rw [trackPending_queues]

/-- The drain loop sends exactly the longest prefix of the queue on which
every send succeeds, in FIFO order. -/
theorem drainSends_eq_takeWhile (sendOk : Nat → OuterPacket → Bool) (ws : Nat)
    (l : List OuterPacket) :
    drainSends sendOk ws l =
      (l.takeWhile (fun m => sendOk ws m)).map (fun m => (ws, m)) := by
  induction l with
  | nil => rfl
  | cons a l ih =>
      unfold drainSends
      by_cases h : sendOk ws a
      · rw [if_pos h, List.takeWhile_cons_of_pos h, List.map_cons, ih]
      · rw [if_neg (by rw [Bool.not_eq_true] at h; rw [h]; exact Bool.false_ne_true),
          List.takeWhile_cons_of_neg h, List.map_nil]

/-- `connect` always ends with the connection id mapped to the new stream. -/
theorem connect_connections (sendOk : Nat → OuterPacket → Bool) (rs : RelayState)
    (cid : String) (ws : Nat) (id : String) :
    (WebSocketManager.connect sendOk rs cid ws).rs.connections id =
      if id = cid then some ws else rs.connections id := by
  unfold WebSocketManager.connect
  dsimp only [registerConn, clearQueue]
  by_cases h : ((rs.queues cid).isEmpty : Prop)
  · rw [if_pos h]
  · rw [if_neg h]

/-- `connect` always ends with the connection id's queue entry removed
(even when some drained envelopes were never sent); other queues are
untouched. -/
theorem connect_queues (sendOk : Nat → OuterPacket → Bool) (rs : RelayState)
    (cid : String) (ws : Nat) (id : String) :
    (WebSocketManager.connect sendOk rs cid ws).rs.queues id =
      if id = cid then [] else rs.queues id := by
  unfold WebSocketManager.connect
  dsimp only [registerConn, clearQueue]
  by_cases h : ((rs.queues cid).isEmpty : Prop)
  · rw [if_pos h]
    by_cases hid : id = cid
    · rw [if_pos hid, hid]
      exact List.isEmpty_iff.mp h
    · rw [if_neg hid]
  · rw [if_neg h]

/-- `connect` sends exactly the drained prefix of the pre-existing queue. -/
theorem connect_sent (sendOk : Nat → OuterPacket → Bool) (rs : RelayState)
    (cid : String) (ws : Nat) :
    (WebSocketManager.connect sendOk rs cid ws).sent =
      drainSends sendOk ws (rs.queues cid) := by
  unfold WebSocketManager.connect
  dsimp only [registerConn, clearQueue]
  by_cases h : ((rs.queues cid).isEmpty : Prop)
  · rw [if_pos h, List.isEmpty_iff.mp h]
    rfl
  · rw [if_neg h]

/-- `connect` never closes any stream. -/
theorem connect_closed (sendOk : Nat → OuterPacket → Bool) (rs : RelayState)
    (cid : String) (ws : Nat) :
    (WebSocketManager.connect sendOk rs cid ws).closed = [] := by
  unfold WebSocketManager.connect
  dsimp only [registerConn, clearQueue]
  by_cases h : ((rs.queues cid).isEmpty : Prop)
  · rw [if_pos h]
  · rw [if_neg h]

/-- `disconnect` closes exactly the stream that was registered under the
id, when there was one. -/
theorem disconnect_closes (rs : RelayState) (cid : String) :
    (WebSocketManager.disconnect rs cid).closed = (rs.connections cid).toList := by
  unfold WebSocketManager.disconnect
  rcases h : rs.connections cid with _ | w <;> rfl

/-- `push_response` always pops the pending entry: its final state is
`popPending`, whatever the outcome. -/
theorem push_response_rs (sendOk : Nat → OuterPacket → Bool) (rs : RelayState)
    (did : String) (data : OuterPacket) :
    (WebSocketManager.push_response sendOk rs did data).rs = popPending rs did := by
  unfold WebSocketManager.push_response
  rcases h : rs.pending_responses did with _ | cid
  · rfl
  · dsimp only
    rcases h2 : (popPending rs did).connections cid with _ | ws
    · rfl
    · dsimp only
      by_cases hsend : sendOk ws data
      · rw [if_pos hsend]
      · rw [if_neg hsend]

/-- When nobody is waiting for the device, `push_response` forwards
nothing. -/
theorem push_response_not_waiting (sendOk : Nat → OuterPacket → Bool) (rs : RelayState)
    (did : String) (data : OuterPacket) (h : rs.pending_responses did = none) :
    (WebSocketManager.push_response sendOk rs did data).forwarded = false := by
  unfold WebSocketManager.push_response
  rw [h]

/-- `find?` over a row update: looking up the updated key yields the image
of the original row, provided the update preserves the key. -/
theorem find?_update_self (l : List DeviceR) (did : String) (g : DeviceR → DeviceR)
    (hg : ∀ x, (g x).device_id = x.device_id) :
    (l.map (fun x => if x.device_id == did then g x else x)).find?
        (fun d => d.device_id == did) =
      (l.find? (fun d => d.device_id == did)).map g := by
  induction l with
  | nil => rfl
  | cons a l ih =>
      rw [List.map_cons]
      by_cases h : a.device_id = did
      · have hb : (a.device_id == did) = true := beq_iff_eq.mpr h
        have e1 : List.find? (fun d => d.device_id == did)
            (g a :: l.map (fun x => if x.device_id == did then g x else x)) =
              some (g a) :=
          List.find?_cons_of_pos _ (by show ((g a).device_id == did) = true; rw [hg a]; exact hb)
        have e2 : List.find? (fun d => d.device_id == did) (a :: l) = some a :=
          List.find?_cons_of_pos _ hb
        rw [if_pos hb, e1, e2]
        rfl
      · have hb : (a.device_id == did) = false := beq_eq_false_iff_ne.mpr h
        have hnp : ¬ ((a.device_id == did) = true) := fun hc => Bool.false_ne_true (hb ▸ hc)
        have e1 : List.find? (fun d => d.device_id == did)
            (a :: l.map (fun x => if x.device_id == did then g x else x)) =
              List.find? (fun d => d.device_id == did)
                (l.map (fun x => if x.device_id == did then g x else x)) :=
          List.find?_cons_of_neg _ hnp
        have e2 : List.find? (fun d => d.device_id == did) (a :: l) =
            List.find? (fun d => d.device_id == did) l :=
          List.find?_cons_of_neg _ hnp
        rw [if_neg hnp, e1, e2, ih]

/-- `find?` over a row update: looking up a different key is unaffected. -/
theorem find?_update_ne (l : List DeviceR) (did did' : String) (g : DeviceR → DeviceR)
    (hg : ∀ x, (g x).device_id = x.device_id) (hne : did' ≠ did) :
    (l.map (fun x => if x.device_id == did then g x else x)).find?
        (fun d => d.device_id == did') =
      l.find? (fun d => d.device_id == did') := by
  induction l with
  | nil => rfl
  | cons a l ih =>
      rw [List.map_cons]
      by_cases h : a.device_id = did
      · have hb : (a.device_id == did) = true := beq_iff_eq.mpr h
        have hne' : ¬ a.device_id = did' := by
          rw [h]; exact fun hc => hne hc.symm
        have hp : ((g a).device_id == did') = false := by
          rw [hg a]; exact beq_eq_false_iff_ne.mpr hne'
        have hp' : (a.device_id == did') = false := beq_eq_false_iff_ne.mpr hne'
        have e1 : List.find? (fun d => d.device_id == did')
            (g a :: l.map (fun x => if x.device_id == did then g x else x)) =
              List.find? (fun d => d.device_id == did')
                (l.map (fun x => if x.device_id == did then g x else x)) :=
          List.find?_cons_of_neg _ (fun hc => Bool.false_ne_true (hp ▸ hc))
        have e2 : List.find? (fun d => d.device_id == did') (a :: l) =
            List.find? (fun d => d.device_id == did') l :=
          List.find?_cons_of_neg _ (fun hc => Bool.false_ne_true (hp' ▸ hc))
        rw [if_pos hb, e1, e2, ih]
      · have hb : (a.device_id == did) = false := beq_eq_false_iff_ne.mpr h
        rw [if_neg (fun hc => Bool.false_ne_true (hb ▸ hc))]
        by_cases h2 : a.device_id = did'
        · have hb2 : (a.device_id == did') = true := beq_iff_eq.mpr h2
          have e1 : List.find? (fun d => d.device_id == did')
              (a :: l.map (fun x => if x.device_id == did then g x else x)) = some a :=
            List.find?_cons_of_pos _ hb2
          have e2 : List.find? (fun d => d.device_id == did') (a :: l) = some a :=
            List.find?_cons_of_pos _ hb2
          rw [e1, e2]
        · have hb2 : (a.device_id == did') = false := beq_eq_false_iff_ne.mpr h2
          have e1 : List.find? (fun d => d.device_id == did')
              (a :: l.map (fun x => if x.device_id == did then g x else x)) =
                List.find? (fun d => d.device_id == did')
                  (l.map (fun x => if x.device_id == did then g x else x)) :=
            List.find?_cons_of_neg _ (fun hc => Bool.false_ne_true (hb2 ▸ hc))
          have e2 : List.find? (fun d => d.device_id == did') (a :: l) =
              List.find? (fun d => d.device_id == did') l :=
            List.find?_cons_of_neg _ (fun hc => Bool.false_ne_true (hb2 ▸ hc))
          rw [e1, e2, ih]

/-- Looking up the updated device yields the image of the original row. -/
theorem findDevice_updateDevice_self (db : DB) (did : String) (g : DeviceR → DeviceR)
    (hg : ∀ x, (g x).device_id = x.device_id) :
    findDevice (updateDevice db did g) did = (findDevice db did).map g :=
  find?_update_self db.devices did g hg

/-- Looking up any other device is unaffected by the update. -/
theorem findDevice_updateDevice_ne (db : DB) (did did' : String) (g : DeviceR → DeviceR)
    (hg : ∀ x, (g x).device_id = x.device_id) (hne : did' ≠ did) :
    findDevice (updateDevice db did g) did' = findDevice db did' :=
  find?_update_ne db.devices did did' g hg hne

/-- Rows whose key differs from the updated key are exactly preserved. -/
theorem mem_updateDevice_of_ne (db : DB) (did : String) (g : DeviceR → DeviceR)
    (hg : ∀ x, (g x).device_id = x.device_id) (d : DeviceR)
    (hd : d.device_id ≠ did) :
    d ∈ (updateDevice db did g).devices ↔ d ∈ db.devices := by
  have hdb : (d.device_id == did) = false := beq_eq_false_iff_ne.mpr hd
  constructor
  · intro h
    rcases List.mem_map.1 h with ⟨x, hx, hfx⟩
    by_cases hxd : x.device_id = did
    · exfalso
      have hgx : (g x).device_id = did := by rw [hg x]; exact hxd
      rw [if_pos (beq_iff_eq.mpr hxd)] at hfx
      exact hd (hfx ▸ hgx)
    · rw [if_neg (by rw [beq_eq_false_iff_ne.mpr hxd]; exact Bool.false_ne_true)] at hfx
      exact hfx ▸ hx
  · intro h
    have hfix : (fun x => if x.device_id == did then g x else x) d = d := by
      show (if d.device_id == did then g d else d) = d
      rw [if_neg (by rw [hdb]; exact Bool.false_ne_true)]
    exact hfix ▸ List.mem_map_of_mem _ h

/-- A device update never touches the message table. -/
theorem updateDevice_messages (db : DB) (did : String) (g : DeviceR → DeviceR) :
    (updateDevice db did g).messages = db.messages := rfl

/-- Sorting by timestamp is a permutation, so it preserves length. -/
theorem orderByTimestamp_length (l : List MessageR) :
    (orderByTimestamp l).length = l.length :=
  (List.perm_insertionSort _ l).length_eq

/-- A valid frame is not rejected by the missing-fields check. -/
theorem validFrame_not_missing (f : Frame) (hv : validFrame f = true) :
    ¬ ((!hasAllFields f) = true) := by
  have h := (Bool.and_eq_true_iff.mp hv).1
  rw [h]
  decide

/-- A valid frame is not rejected by the version check. -/
theorem validFrame_version_ok (f : Frame) (hv : validFrame f = true) :
    ¬ ((f.version != some "1.0") = true) := by
  have h := (Bool.and_eq_true_iff.mp hv).2
  show ¬ ((!(f.version == some "1.0")) = true)
  rw [h]
  decide

/-- A valid frame declares exactly version "1.0". -/
theorem validFrame_version_eq (f : Frame) (hv : validFrame f = true) :
    f.version = some "1.0" :=
  eq_of_beq (Bool.and_eq_true_iff.mp hv).2

/-- Replacing the message table does not change device lookups. -/
theorem findDevice_set_messages (db : DB) (M : List MessageR) (did : String) :
    findDevice { db with messages := M } did = findDevice db did := rfl

/-- A device update does not change the message query. -/
theorem msgsFor_updateDevice (db : DB) (did : String) (g : DeviceR → DeviceR)
    (x y : String) : msgsFor (updateDevice db did g) x y = msgsFor db x y := rfl

/-- Popping a pending entry leaves `none` under the popped key. -/
theorem popPending_self (rs : RelayState) (did : String) :
    (popPending rs did).pending_responses did = none := by
  unfold popPending
  dsimp only
  rw [if_pos rfl]

/-- The ingress update stores the incoming counter verbatim when present
and keeps the stored one when absent. -/
theorem deviceIngressUpdate_counter (now : Nat) (f : Frame) (d : DeviceR) :
    (deviceIngressUpdate now f d).last_request_counter =
      f.request_counter.getD d.last_request_counter := by
  unfold deviceIngressUpdate
  cases f.request_counter <;> rfl

/-- `some (o.getD dflt) = o` whenever the option is populated. -/
theorem some_getD_of_isSome (o : Option String) (h : o.isSome = true) :
    some (o.getD "") = o := by
  cases o
  · cases h
  · rfl

/-- Filtering for a predicate after keeping only its complement yields
nothing: a destructive pull leaves no row behind for the same key. -/
theorem filter_not_filter (p : MessageR → Bool) (l : List MessageR) :
    (l.filter (fun m => !(p m))).filter p = [] := by
  induction l with
  | nil => rfl
  | cons a l ih =>
      by_cases h : p a = true <;> simp [List.filter_cons, h, ih]

/-! ## Claims -/

/-- Claim C2 counterexample: with envelopes m1, m2 queued for "D" and a
stream whose sends all fail, registering "D" sends nothing yet leaves the
queue empty — the envelopes that were never successfully sent do not
remain queued. -/
theorem c2_counterexample :
    c2rs.queues "D" = [pkt "m1", pkt "m2"] ∧
    (WebSocketManager.connect sendAllFail c2rs "D" 1).sent = [] ∧
    (WebSocketManager.connect sendAllFail c2rs "D" 1).rs.queues "D" = [] := by
  decide

/-- Claim C2 (amended): on registration the queued envelopes are drained in
FIFO order stopping on the first send error — exactly the longest prefix
of successful sends is delivered — but afterwards the whole queue entry is
removed, so every envelope not yet successfully sent is discarded rather
than remaining queued; other queues are untouched and the id maps to the
new stream. -/
theorem c2_drain_discards_leftovers (sendOk : Nat → OuterPacket → Bool)
    (rs : RelayState) (cid : String) (ws : Nat) :
    (WebSocketManager.connect sendOk rs cid ws).sent =
      ((rs.queues cid).takeWhile (fun m => sendOk ws m)).map (fun m => (ws, m)) ∧
    (∀ id, (WebSocketManager.connect sendOk rs cid ws).rs.queues id =
      if id = cid then [] else rs.queues id) ∧
    (WebSocketManager.connect sendOk rs cid ws).rs.connections cid = some ws := by
  refine ⟨?_, fun id => connect_queues sendOk rs cid ws id, ?_⟩
  · rw [connect_sent, drainSends_eq_takeWhile]
  · rw [connect_connections sendOk rs cid ws cid, if_pos rfl]

/-- Claim C4: every call to `WebSocketManager.push` puts the envelope in
exactly one place — either it is sent once over the target's registered
stream and the call returns `true` with every queue untouched, or it is
appended once to the target's queue and the call returns `false`; never
both, never neither. -/
theorem c4_push_exactly_one_place (sendOk : Nat → OuterPacket → Bool) (rs : RelayState)
    (target : String) (data : OuterPacket) (sender : Option String) :
    ((WebSocketManager.push sendOk rs target data sender).delivered = true ∧
      (WebSocketManager.push sendOk rs target data sender).sent.map Prod.snd = [data] ∧
      (WebSocketManager.push sendOk rs target data sender).sent.map Prod.fst =
        (rs.connections target).toList ∧
      (WebSocketManager.push sendOk rs target data sender).rs.queues = rs.queues) ∨
    ((WebSocketManager.push sendOk rs target data sender).delivered = false ∧
      (WebSocketManager.push sendOk rs target data sender).sent = [] ∧
      ∀ id, (WebSocketManager.push sendOk rs target data sender).rs.queues id =
        if id = target then rs.queues id ++ [data] else rs.queues id) :=
  push_cases sendOk rs target data sender

/-- Claim C6 counterexample: when stream 1 is registered for "D" and
stream 2 registers under the same id, the map points to stream 2 but the
registry closes nothing — the earlier stream is not closed. -/
theorem c6_counterexample :
    c6rs.connections "D" = some 1 ∧
    (WebSocketManager.connect sendAllOk c6rs "D" 2).rs.connections "D" = some 2 ∧
    (WebSocketManager.connect sendAllOk c6rs "D" 2).closed = [] := by
  decide

/-- Claim C6 (amended): for every pair of registrations under the same
connection id the later registration wins — afterwards the id maps to the
new stream — but the earlier stream is not closed by the registry (connect
closes no stream; the old entry is merely overwritten). -/
theorem c6_later_registration_wins_no_close (sendOk1 sendOk2 : Nat → OuterPacket → Bool)
    (rs : RelayState) (cid : String) (ws1 ws2 : Nat) :
    (WebSocketManager.connect sendOk2
        (WebSocketManager.connect sendOk1 rs cid ws1).rs cid ws2).rs.connections cid =
      some ws2 ∧
    (WebSocketManager.connect sendOk1 rs cid ws1).closed = [] ∧
    (WebSocketManager.connect sendOk2
        (WebSocketManager.connect sendOk1 rs cid ws1).rs cid ws2).closed = [] := by
  refine ⟨?_, connect_closed sendOk1 rs cid ws1, connect_closed sendOk2 _ cid ws2⟩
  rw [connect_connections sendOk2 _ cid ws2 cid, if_pos rfl]

/-- Claim C7 counterexample: with one envelope queued for "D" and sends
succeeding, the first frame the freshly authenticated device stream
receives is the queued envelope, not the welcome frame — the welcome is
sent only after `relay.connect` has drained the queue. -/
theorem c7_counterexample :
    (deviceConnectPhase sendAllOk c7rs "D" 1).2 =
      [ServerFrame.envelope (pkt "m1"), ServerFrame.welcome "D"] ∧
    (deviceConnectPhase sendAllOk c7rs "D" 1).2.head? ≠
      some (ServerFrame.welcome "D") := by
  decide

/-- Claim C7 (amended): on a successfully authenticated device stream the
welcome frame is sent only after the queued envelopes are drained: the
frames received are the drained envelopes followed by the welcome frame,
and the welcome frame comes first exactly when no queued envelope was
sent (in particular when the queue was empty). -/
theorem c7_welcome_after_drain (sendOk : Nat → OuterPacket → Bool) (rs : RelayState)
    (did : String) (ws : Nat) :
    (deviceConnectPhase sendOk rs did ws).2 =
      (WebSocketManager.connect sendOk rs did ws).sent.map
        (fun p => ServerFrame.envelope p.2) ++ [ServerFrame.welcome did] ∧
    ((deviceConnectPhase sendOk rs did ws).2.head? = some (ServerFrame.welcome did) ↔
      (WebSocketManager.connect sendOk rs did ws).sent = []) := by
  refine ⟨rfl, ?_⟩
  have hd : (deviceConnectPhase sendOk rs did ws).2 =
      (WebSocketManager.connect sendOk rs did ws).sent.map
        (fun p => ServerFrame.envelope p.2) ++ [ServerFrame.welcome did] := rfl
  rw [hd]
  cases hs : (WebSocketManager.connect sendOk rs did ws).sent with
  | nil => simp
  | cons p ps => simp

/-- Claim C3 counterexample: device "X" stores `last_request_counter = 5`;
a successfully validated ingress frame carrying the lower counter 3
overwrites the stored value to 3 — a lower incoming counter is stored, not
ignored, and the counter decreases. -/
theorem c3_counterexample :
    validFrame c3frame = true ∧
    (findDevice c3db "X").map DeviceR.last_request_counter = some 5 ∧
    (findDevice (processDeviceFrame sendAllOk c3db rsEmpty 7 "X" c3dev c3frame).db
        "X").map DeviceR.last_request_counter = some 3 := by
  decide

/-- Claim C3 (amended): for every stored device and every successfully
validated ingress stream frame, the stored `last_request_counter` is
assigned the frame's `request_counter` unconditionally whenever one is
present — even when it is lower than the stored value, so the counter is
not non-decreasing — and left unchanged when absent; `last_seen` is set to
now. -/
theorem c3_counter_overwritten (sendOk : Nat → OuterPacket → Bool) (db : DB)
    (rs : RelayState) (now : Nat) (pid : String) (ad : DeviceR) (f : Frame)
    (d : DeviceR) (hv : validFrame f = true)
    (hdev : findDevice db (f.device_id.getD "") = some d) :
    (findDevice (processDeviceFrame sendOk db rs now pid ad f).db
        (f.device_id.getD "")).map DeviceR.last_request_counter =
      some (f.request_counter.getD d.last_request_counter) ∧
    (findDevice (processDeviceFrame sendOk db rs now pid ad f).db
        (f.device_id.getD "")).map DeviceR.last_seen = some (some now) := by
  unfold processDeviceFrame
  rw [if_neg (validFrame_not_missing f hv), if_neg (validFrame_version_ok f hv)]
  dsimp only
  rw [hdev]
  dsimp only
  by_cases hfwd :
      (WebSocketManager.push_response sendOk rs pid (deviceOuterPacket f)).forwarded
  · rw [if_pos hfwd]
    dsimp only
    rw [findDevice_updateDevice_self db (f.device_id.getD "")
      (deviceIngressUpdate now f) (fun x => rfl), hdev]
    exact ⟨by show some ((deviceIngressUpdate now f d).last_request_counter) = _
              rw [deviceIngressUpdate_counter], rfl⟩
  · rw [if_neg hfwd]
    dsimp only
    rw [findDevice_set_messages, findDevice_updateDevice_self db (f.device_id.getD "")
      (deviceIngressUpdate now f) (fun x => rfl), hdev]
    exact ⟨by show some ((deviceIngressUpdate now f d).last_request_counter) = _
              rw [deviceIngressUpdate_counter], rfl⟩

/-- Claim C3 witness: the amended statement evaluated in the concrete
scenario of `c3db`: the stored counter becomes 3 (the frame's value) and
`last_seen` becomes 7. -/
theorem c3_witness :
    (findDevice (processDeviceFrame sendAllOk c3db rsEmpty 7 "X" c3dev c3frame).db
        (c3frame.device_id.getD "")).map DeviceR.last_request_counter =
      some (c3frame.request_counter.getD c3dev.last_request_counter) ∧
    (findDevice (processDeviceFrame sendAllOk c3db rsEmpty 7 "X" c3dev c3frame).db
        (c3frame.device_id.getD "")).map DeviceR.last_seen = some (some 7) :=
  c3_counter_overwritten sendAllOk c3db rsEmpty 7 "X" c3dev c3frame c3dev rfl rfl

/-- Claim C5 counterexample: a valid client frame carrying
`request_counter = 7` is delivered to the connected device as a packet
whose `request_counter` is absent — the relay drops the field rather than
forwarding it verbatim. -/
theorem c5_counterexample :
    c5frame.request_counter = some 7 ∧
    (processClientFrame sendAllOk dbEmpty c5rs 3 "client_c1" c5frame).delivered = true ∧
    (processClientFrame sendAllOk dbEmpty c5rs 3 "client_c1" c5frame).relaySent.map
        (fun p => p.2.request_counter) = [none] := by
  decide

/-- Claim C5 (amended): for every valid client-stream command frame the
packet the relay delivers (or queues) for the target device carries the
frame's `device_id`, `payload`, `signature` and `version` verbatim, but
its `request_counter` is always absent — the relay drops the frame's
`request_counter` instead of forwarding it. -/
theorem c5_verbatim_except_counter_dropped (sendOk : Nat → OuterPacket → Bool)
    (db : DB) (rs : RelayState) (now : Nat) (cid : String) (f : Frame)
    (hv : validFrame f = true) :
    some (clientOuterPacket f).device_id = f.device_id ∧
    some (clientOuterPacket f).payload = f.payload ∧
    some (clientOuterPacket f).signature = f.signature ∧
    some (clientOuterPacket f).version = f.version ∧
    (clientOuterPacket f).request_counter = none ∧
    ((processClientFrame sendOk db rs now cid f).delivered = true →
      (processClientFrame sendOk db rs now cid f).relaySent.map Prod.snd =
        [clientOuterPacket f]) ∧
    ((processClientFrame sendOk db rs now cid f).delivered = false →
      (processClientFrame sendOk db rs now cid f).relaySent = [] ∧
      (processClientFrame sendOk db rs now cid f).rs.queues (f.device_id.getD "") =
        rs.queues (f.device_id.getD "") ++ [clientOuterPacket f]) := by
  have hAll := (Bool.and_eq_true_iff.mp hv).1
  have h1 := Bool.and_eq_true_iff.mp hAll
  have h2 := Bool.and_eq_true_iff.mp h1.1
  have h3 := Bool.and_eq_true_iff.mp h2.1
  refine ⟨some_getD_of_isSome f.device_id h3.1, some_getD_of_isSome f.payload h3.2,
    some_getD_of_isSome f.signature h2.2, (validFrame_version_eq f hv).symm, rfl, ?_, ?_⟩
  all_goals
    unfold processClientFrame
    rw [if_neg (validFrame_not_missing f hv), if_neg (validFrame_version_ok f hv)]
    dsimp only
    intro hdel
  · rcases push_cases sendOk rs (f.device_id.getD "") (clientOuterPacket f) (some cid)
      with ⟨hd, hsnd, hfst, hq⟩ | ⟨hd, hsent, hq⟩
    · exact hsnd
    · rw [hd] at hdel
      cases hdel
  · rcases push_cases sendOk rs (f.device_id.getD "") (clientOuterPacket f) (some cid)
      with ⟨hd, hsnd, hfst, hq⟩ | ⟨hd, hsent, hq⟩
    · rw [hd] at hdel
      cases hdel
    · refine ⟨hsent, ?_⟩
      rw [hq (f.device_id.getD ""), if_pos rfl]

/-- Claim C5 witness: the amended statement evaluated in the concrete
scenario where the client frame `c5frame` is delivered to device "D". -/
theorem c5_witness :
    some (clientOuterPacket c5frame).device_id = c5frame.device_id ∧
    some (clientOuterPacket c5frame).payload = c5frame.payload ∧
    some (clientOuterPacket c5frame).signature = c5frame.signature ∧
    some (clientOuterPacket c5frame).version = c5frame.version ∧
    (clientOuterPacket c5frame).request_counter = none ∧
    ((processClientFrame sendAllOk dbEmpty c5rs 3 "client_c1" c5frame).delivered = true →
      (processClientFrame sendAllOk dbEmpty c5rs 3 "client_c1" c5frame).relaySent.map
        Prod.snd = [clientOuterPacket c5frame]) ∧
    ((processClientFrame sendAllOk dbEmpty c5rs 3 "client_c1" c5frame).delivered = false →
      (processClientFrame sendAllOk dbEmpty c5rs 3 "client_c1" c5frame).relaySent = [] ∧
      (processClientFrame sendAllOk dbEmpty c5rs 3 "client_c1" c5frame).rs.queues
          (c5frame.device_id.getD "") =
        c5rs.queues (c5frame.device_id.getD "") ++ [clientOuterPacket c5frame]) :=
  c5_verbatim_except_counter_dropped sendAllOk dbEmpty c5rs 3 "client_c1" c5frame rfl

/-- Claim C10: on a device stream authenticated for the path device, every
valid ingress frame mutates exactly the device row named by the frame's
`device_id` field — looked up with no ownership check, so it may be a
different user's device — leaving all other rows unchanged; a
non-forwarded response is durably queued under the frame's `device_id`
(with the path device's token), while only the pending-response lookup
uses the path device id. -/
theorem c10_device_frame_uses_frame_device_id (sendOk : Nat → OuterPacket → Bool)
    (db : DB) (rs : RelayState) (now : Nat) (pid : String) (ad : DeviceR) (f : Frame)
    (hv : validFrame f = true) :
    (∀ d, d ∈ db.devices → d.device_id ≠ f.device_id.getD "" →
      d ∈ (processDeviceFrame sendOk db rs now pid ad f).db.devices) ∧
    (∀ d, d ∈ (processDeviceFrame sendOk db rs now pid ad f).db.devices →
      d.device_id ≠ f.device_id.getD "" → d ∈ db.devices) ∧
    (∀ d, findDevice db (f.device_id.getD "") = some d →
      findDevice (processDeviceFrame sendOk db rs now pid ad f).db
          (f.device_id.getD "") = some (deviceIngressUpdate now f d)) ∧
    ((processDeviceFrame sendOk db rs now pid ad f).forwarded = false →
      (processDeviceFrame sendOk db rs now pid ad f).db.messages =
        db.messages ++ [deviceResponseRow now ad f]) ∧
    ((processDeviceFrame sendOk db rs now pid ad f).forwarded = true →
      (processDeviceFrame sendOk db rs now pid ad f).db.messages = db.messages) ∧
    (rs.pending_responses pid = none →
      (processDeviceFrame sendOk db rs now pid ad f).forwarded = false) ∧
    (processDeviceFrame sendOk db rs now pid ad f).rs.pending_responses pid = none := by
  unfold processDeviceFrame
  rw [if_neg (validFrame_not_missing f hv), if_neg (validFrame_version_ok f hv)]
  dsimp only
  rcases hdev : findDevice db (f.device_id.getD "") with _ | d0
  · dsimp only
    by_cases hfwd :
        (WebSocketManager.push_response sendOk rs pid (deviceOuterPacket f)).forwarded
    · rw [if_pos hfwd]
      dsimp only
      refine ⟨fun d hd _ => hd, fun d hd _ => hd, fun d h => Option.noConfusion h,
        ?_, fun _ => rfl, ?_, ?_⟩
      · intro h
        cases h
      · intro hnone
        rw [push_response_not_waiting sendOk rs pid (deviceOuterPacket f) hnone] at hfwd
        cases hfwd
      · rw [push_response_rs]
        exact popPending_self rs pid
    · rw [if_neg hfwd]
      dsimp only
      refine ⟨fun d hd _ => hd, fun d hd _ => hd, fun d h => Option.noConfusion h,
        fun _ => rfl, ?_, fun _ => rfl, ?_⟩
      · intro h
        cases h
      · rw [push_response_rs]
        exact popPending_self rs pid
  · dsimp only
    by_cases hfwd :
        (WebSocketManager.push_response sendOk rs pid (deviceOuterPacket f)).forwarded
    · rw [if_pos hfwd]
      dsimp only
      refine ⟨?_, ?_, ?_, ?_, fun _ => updateDevice_messages db (f.device_id.getD "")
        (deviceIngressUpdate now f), ?_, ?_⟩
      · intro d hd hne
        exact (mem_updateDevice_of_ne db (f.device_id.getD "")
          (deviceIngressUpdate now f) (fun x => rfl) d hne).mpr hd
      · intro d hd hne
        exact (mem_updateDevice_of_ne db (f.device_id.getD "")
          (deviceIngressUpdate now f) (fun x => rfl) d hne).mp hd
      · intro d h
        cases h
        rw [findDevice_updateDevice_self db (f.device_id.getD "")
          (deviceIngressUpdate now f) (fun x => rfl), hdev]
        rfl
      · intro h
        cases h
      · intro hnone
        rw [push_response_not_waiting sendOk rs pid (deviceOuterPacket f) hnone] at hfwd
        cases hfwd
      · rw [push_response_rs]
        exact popPending_self rs pid
    · rw [if_neg hfwd]
      dsimp only
      refine ⟨?_, ?_, ?_, ?_, ?_, fun _ => rfl, ?_⟩
      · intro d hd hne
        exact (mem_updateDevice_of_ne db (f.device_id.getD "")
          (deviceIngressUpdate now f) (fun x => rfl) d hne).mpr hd
      · intro d hd hne
        exact (mem_updateDevice_of_ne db (f.device_id.getD "")
          (deviceIngressUpdate now f) (fun x => rfl) d hne).mp hd
      · intro d h
        cases h
        rw [findDevice_set_messages, findDevice_updateDevice_self db (f.device_id.getD "")
          (deviceIngressUpdate now f) (fun x => rfl), hdev]
        rfl
      · intro _
        show (updateDevice db (f.device_id.getD "") (deviceIngressUpdate now f)).messages
            ++ [deviceResponseRow now ad f] = db.messages ++ [deviceResponseRow now ad f]
        rw [updateDevice_messages]
      · intro h
        cases h
      · rw [push_response_rs]
        exact popPending_self rs pid

/-- Claim C10 witness: the statement evaluated in the concrete scenario
where device "A"'s stream carries a frame naming device "B" (owned by a
different user), with nobody waiting for a response. -/
theorem c10_witness :
    (∀ d, d ∈ c10db.devices → d.device_id ≠ c10frame.device_id.getD "" →
      d ∈ (processDeviceFrame sendAllOk c10db rsEmpty 4 "A" c10pathdev c10frame).db.devices) ∧
    (∀ d, d ∈ (processDeviceFrame sendAllOk c10db rsEmpty 4 "A" c10pathdev c10frame).db.devices →
      d.device_id ≠ c10frame.device_id.getD "" → d ∈ c10db.devices) ∧
    (∀ d, findDevice c10db (c10frame.device_id.getD "") = some d →
      findDevice (processDeviceFrame sendAllOk c10db rsEmpty 4 "A" c10pathdev c10frame).db
          (c10frame.device_id.getD "") = some (deviceIngressUpdate 4 c10frame d)) ∧
    ((processDeviceFrame sendAllOk c10db rsEmpty 4 "A" c10pathdev c10frame).forwarded = false →
      (processDeviceFrame sendAllOk c10db rsEmpty 4 "A" c10pathdev c10frame).db.messages =
        c10db.messages ++ [deviceResponseRow 4 c10pathdev c10frame]) ∧
    ((processDeviceFrame sendAllOk c10db rsEmpty 4 "A" c10pathdev c10frame).forwarded = true →
      (processDeviceFrame sendAllOk c10db rsEmpty 4 "A" c10pathdev c10frame).db.messages =
        c10db.messages) ∧
    (rsEmpty.pending_responses "A" = none →
      (processDeviceFrame sendAllOk c10db rsEmpty 4 "A" c10pathdev c10frame).forwarded = false) ∧
    (processDeviceFrame sendAllOk c10db rsEmpty 4 "A" c10pathdev c10frame).rs.pending_responses
      "A" = none :=
  c10_device_frame_uses_frame_device_id sendAllOk c10db rsEmpty 4 "A" c10pathdev c10frame rfl

/-- Claim C1 counterexample: user 2 (token "t2") pushes to device "D1"
owned by user 1, declaring version "2.0".  The handler answers status
"ok" — neither 404 DEVICE_NOT_FOUND nor 401 — and mutates state: one
envelope row is inserted. -/
theorem c1_counterexample :
    (findDevice c1db "D1").map DeviceR.user_id = some 1 ∧
    (validate_api_token_dependency c1db (some "t2")).toOption.map UserR.id = some 2 ∧
    c1msg.version = "2.0" ∧
    pushResOf (pushRoute sendAllOk c1db rsEmpty 9 (some "t2") c1msg) =
      some { status := "ok", device_id := "D1", delivered_via_ws := false } ∧
    pushMessagesOf (pushRoute sendAllOk c1db rsEmpty 9 (some "t2") c1msg) =
      some [pushRow c1db 9 c1msg] := by
  decide

/-- Claim C1 (amended): HTTP push validates only the API token — a missing
or unresolvable token yields 401 before the handler runs — and the
schema's required fields; it checks neither the version, nor that the
target device exists, nor that it belongs to the authenticated user: every
authenticated push returns status "ok" and inserts exactly one envelope
row, and delivery is only attempted when the device row exists. -/
theorem c1_push_unvalidated (sendOk : Nat → OuterPacket → Bool) (db : DB)
    (rs : RelayState) (now : Nat) (tok : Option String) (msg : PushMessage) (u : UserR)
    (hauth : validate_api_token_dependency db tok = Except.ok u) :
    pushRoute sendOk db rs now tok msg = Except.ok (push_message sendOk db rs now u msg) ∧
    (push_message sendOk db rs now u msg).res.status = "ok" ∧
    (push_message sendOk db rs now u msg).res.device_id = msg.device_id ∧
    (push_message sendOk db rs now u msg).db.messages =
      db.messages ++ [pushRow db now msg] ∧
    (findDevice db msg.device_id = none →
      (push_message sendOk db rs now u msg).res.delivered_via_ws = false) ∧
    (∀ t, validate_api_token_dependency db t = Except.error 401 →
      pushRoute sendOk db rs now t msg = Except.error 401) := by
  refine ⟨?_, ?_, ?_, ?_, ?_, ?_⟩
  · unfold pushRoute
    rw [hauth]
  · rcases hdev : findDevice db msg.device_id with _ | d
    · unfold push_message
      rw [hdev]
    · unfold push_message
      rw [hdev]
  · rcases hdev : findDevice db msg.device_id with _ | d
    · unfold push_message
      rw [hdev]
    · unfold push_message
      rw [hdev]
  · rcases hdev : findDevice db msg.device_id with _ | d
    · unfold push_message
      rw [hdev]
    · unfold push_message
      rw [hdev]
      dsimp only
      show (updateDevice db msg.device_id (touchLastSeen now)).messages
          ++ [pushRow db now msg] = db.messages ++ [pushRow db now msg]
      rw [updateDevice_messages]
  · rcases hdev : findDevice db msg.device_id with _ | d
    · intro _
      unfold push_message
      rw [hdev]
    · intro h
      exact Option.noConfusion h
  · intro t h
    unfold pushRoute
    rw [h]

/-- Claim C1 witness: the amended statement evaluated in the concrete
scenario of `c1db`, authenticated as user 2 who does not own "D1". -/
theorem c1_witness :
    pushRoute sendAllOk c1db rsEmpty 9 (some "t2") c1msg =
      Except.ok (push_message sendAllOk c1db rsEmpty 9 { id := 2, api_token := "t2" } c1msg) ∧
    (push_message sendAllOk c1db rsEmpty 9 { id := 2, api_token := "t2" } c1msg).res.status =
      "ok" ∧
    (push_message sendAllOk c1db rsEmpty 9 { id := 2, api_token := "t2" } c1msg).res.device_id =
      c1msg.device_id ∧
    (push_message sendAllOk c1db rsEmpty 9 { id := 2, api_token := "t2" } c1msg).db.messages =
      c1db.messages ++ [pushRow c1db 9 c1msg] ∧
    (findDevice c1db c1msg.device_id = none →
      (push_message sendAllOk c1db rsEmpty 9 { id := 2, api_token := "t2" }
        c1msg).res.delivered_via_ws = false) ∧
    (∀ t, validate_api_token_dependency c1db t = Except.error 401 →
      pushRoute sendAllOk c1db rsEmpty 9 t c1msg = Except.error 401) :=
  c1_push_unvalidated sendAllOk c1db rsEmpty 9 (some "t2") c1msg
    { id := 2, api_token := "t2" } rfl

/-- Claim C8: for every pull against a stored device, `poll_count` is
incremented exactly when the returned response contains at least one
envelope and left unchanged by empty (heartbeat) pulls; the `wait` value
has no effect on the outcome. -/
theorem c8_poll_count_iff_nonempty (db : DB) (now : Nat) (u : UserR) (msg : PullRequest)
    (d : DeviceR) (hdev : findDevice db msg.device_id = some d) :
    ((pull_messages db now u msg).res.count > 0 →
      (findDevice (pull_messages db now u msg).db msg.device_id).map DeviceR.poll_count =
        some (d.poll_count + 1)) ∧
    ((pull_messages db now u msg).res.count = 0 →
      (findDevice (pull_messages db now u msg).db msg.device_id).map DeviceR.poll_count =
        some d.poll_count) ∧
    (∀ w, pull_messages db now u { msg with wait := w } = pull_messages db now u msg) := by
  refine ⟨?_, ?_, fun w => rfl⟩
  · unfold pull_messages
    rw [hdev]
    dsimp only
    rw [msgsFor_updateDevice db msg.device_id (touchLastSeen now) msg.device_id msg.direction]
    by_cases hM : (orderByTimestamp (msgsFor db msg.device_id msg.direction)).isEmpty
    · intro h
      rw [List.isEmpty_iff.mp hM] at h
      exact absurd h (Nat.lt_irrefl 0)
    · have hM' : (orderByTimestamp (msgsFor db msg.device_id msg.direction)).isEmpty
          = false := by
        cases h0 : (orderByTimestamp (msgsFor db msg.device_id msg.direction)).isEmpty
        · rfl
        · exact absurd h0 hM
      intro _
      have hcond : ((some d).isSome &&
          !(orderByTimestamp (msgsFor db msg.device_id msg.direction)).isEmpty) = true := by
        rw [hM']
        rfl
      rw [if_pos hcond]
      rw [findDevice_set_messages, findDevice_updateDevice_self _ msg.device_id
        bumpPollCount (fun x => rfl), findDevice_updateDevice_self db msg.device_id
        (touchLastSeen now) (fun x => rfl), hdev]
      rfl
  · unfold pull_messages
    rw [hdev]
    dsimp only
    rw [msgsFor_updateDevice db msg.device_id (touchLastSeen now) msg.device_id msg.direction]
    by_cases hM : (orderByTimestamp (msgsFor db msg.device_id msg.direction)).isEmpty
    · intro _
      have hcond : ¬ (((some d).isSome &&
          !(orderByTimestamp (msgsFor db msg.device_id msg.direction)).isEmpty) = true) := by
        rw [hM]
        exact fun hc => Bool.noConfusion hc
      rw [if_neg hcond]
      rw [findDevice_set_messages, findDevice_updateDevice_self db msg.device_id
        (touchLastSeen now) (fun x => rfl), hdev]
      rfl
    · have hM' : (orderByTimestamp (msgsFor db msg.device_id msg.direction)).isEmpty
          = false := by
        cases h0 : (orderByTimestamp (msgsFor db msg.device_id msg.direction)).isEmpty
        · rfl
        · exact absurd h0 hM
      intro h
      have hMnil : orderByTimestamp (msgsFor db msg.device_id msg.direction) = [] :=
        List.map_eq_nil_iff.mp (List.length_eq_zero.mp h)
      rw [hMnil] at hM'
      cases hM'

/-- Claim C8 witness: the statement evaluated in the concrete scenario of
`c8db`, where one envelope is queued and `poll_count` starts at 4. -/
theorem c8_witness :
    ((pull_messages c8db 11 { id := 1, api_token := "t1" } c8msg).res.count > 0 →
      (findDevice (pull_messages c8db 11 { id := 1, api_token := "t1" } c8msg).db
          c8msg.device_id).map DeviceR.poll_count = some (c8dev.poll_count + 1)) ∧
    ((pull_messages c8db 11 { id := 1, api_token := "t1" } c8msg).res.count = 0 →
      (findDevice (pull_messages c8db 11 { id := 1, api_token := "t1" } c8msg).db
          c8msg.device_id).map DeviceR.poll_count = some c8dev.poll_count) ∧
    (∀ w, pull_messages c8db 11 { id := 1, api_token := "t1" } { c8msg with wait := w } =
      pull_messages c8db 11 { id := 1, api_token := "t1" } c8msg) :=
  c8_poll_count_iff_nonempty c8db 11 { id := 1, api_token := "t1" } c8msg c8dev rfl

/-- Claim C9: for every authenticated user and every `device_id`
whatsoever — including another user's device or a nonexistent id — pull
succeeds: it returns all envelopes stored under `(device_id, direction)`
and deletes them; the only error the route raises is 401 for a missing or
unresolvable token. -/
theorem c9_pull_never_device_not_found (db : DB) (now : Nat) (tok : Option String)
    (msg : PullRequest) (u : UserR)
    (hauth : validate_api_token_dependency db tok = Except.ok u) :
    pullRoute db now tok msg = Except.ok (pull_messages db now u msg) ∧
    (pull_messages db now u msg).res.status = "ok" ∧
    (pull_messages db now u msg).res.count =
      (msgsFor db msg.device_id msg.direction).length ∧
    (pull_messages db now u msg).res.messages =
      (orderByTimestamp (msgsFor db msg.device_id msg.direction)).map msgToOut ∧
    (pull_messages db now u msg).db.messages =
      db.messages.filter
        (fun m => !(m.device_id == msg.device_id && m.direction == msg.direction)) ∧
    msgsFor (pull_messages db now u msg).db msg.device_id msg.direction = [] ∧
    (∀ t e, validate_api_token_dependency db t = Except.error e → e = 401) ∧
    (∀ t, validate_api_token_dependency db t = Except.error 401 →
      pullRoute db now t msg = Except.error 401) := by
  refine ⟨?_, rfl, ?_, ?_, ?_, ?_, ?_, ?_⟩
  · unfold pullRoute
    rw [hauth]
  · rcases hdev : findDevice db msg.device_id with _ | d
    · unfold pull_messages
      rw [hdev]
      dsimp only
      rw [List.length_map, orderByTimestamp_length]
    · unfold pull_messages
      rw [hdev]
      dsimp only
      rw [msgsFor_updateDevice db msg.device_id (touchLastSeen now) msg.device_id
        msg.direction, List.length_map, orderByTimestamp_length]
  · rcases hdev : findDevice db msg.device_id with _ | d
    · unfold pull_messages
      rw [hdev]
    · unfold pull_messages
      rw [hdev]
      dsimp only
      rw [msgsFor_updateDevice db msg.device_id (touchLastSeen now) msg.device_id
        msg.direction]
  · rcases hdev : findDevice db msg.device_id with _ | d
    · unfold pull_messages
      rw [hdev]
      dsimp only
      rw [apply_ite DB.messages, updateDevice_messages, ite_self]
    · unfold pull_messages
      rw [hdev]
      dsimp only
      rw [apply_ite DB.messages, updateDevice_messages, updateDevice_messages, ite_self]
  · rcases hdev : findDevice db msg.device_id with _ | d
    · unfold pull_messages
      rw [hdev]
      dsimp only
      exact filter_not_filter
        (fun m => m.device_id == msg.device_id && m.direction == msg.direction) _
    · unfold pull_messages
      rw [hdev]
      dsimp only
      exact filter_not_filter
        (fun m => m.device_id == msg.device_id && m.direction == msg.direction) _
  · intro t e h
    rcases t with _ | t
    · exact (Except.error.inj h).symm
    · unfold validate_api_token_dependency at h
      dsimp only at h
      rcases hu : validate_api_token db t with _ | u0
      · rw [hu] at h
        exact (Except.error.inj h).symm
      · rw [hu] at h
        exact Except.noConfusion h
  · intro t h
    unfold pullRoute
    rw [h]

/-- Claim C9 witness: the statement evaluated in the concrete scenario of
`c9db`: user 2 pulls envelopes for the nonexistent device id "DX" and
receives (and deletes) the queued row without any DEVICE_NOT_FOUND. -/
theorem c9_witness :
    pullRoute c9db 6 (some "t2") c9msg = Except.ok (pull_messages c9db 6 c9user c9msg) ∧
    (pull_messages c9db 6 c9user c9msg).res.status = "ok" ∧
    (pull_messages c9db 6 c9user c9msg).res.count =
      (msgsFor c9db c9msg.device_id c9msg.direction).length ∧
    (pull_messages c9db 6 c9user c9msg).res.messages =
      (orderByTimestamp (msgsFor c9db c9msg.device_id c9msg.direction)).map msgToOut ∧
    (pull_messages c9db 6 c9user c9msg).db.messages =
      c9db.messages.filter
        (fun m => !(m.device_id == c9msg.device_id && m.direction == c9msg.direction)) ∧
    msgsFor (pull_messages c9db 6 c9user c9msg).db c9msg.device_id c9msg.direction = [] ∧
    (∀ t e, validate_api_token_dependency c9db t = Except.error e → e = 401) ∧
    (∀ t, validate_api_token_dependency c9db t = Except.error 401 →
      pullRoute c9db 6 t c9msg = Except.error 401) :=
  c9_pull_never_device_not_found c9db 6 (some "t2") c9msg c9user rfl

end WakeLink
